import Mathlib

/-!
Shallow embedding of the time-series extraction / transformation / export
pipeline of `src/streamlit_ts001.py` (Bolivia growth accounting visualizer).

Modelling conventions:
* A dataset is a list of rows in file order.  A row carries the `Country`
  cell, the `Variable name` cell, and the year cells as an association list
  from column name to cell content.  A year column not listed in `cells`
  models a blank CSV cell.
* A cell is `Cell.num q` when its content parses as a number under
  `pd.to_numeric` (this covers numeric strings), `Cell.blank` when empty /
  NaN, and `Cell.text s` when it is text that fails numeric coercion.
* Numeric values are idealized as rationals.  The results of `pct_change`
  live in `PC`, which makes the IEEE special values produced by pandas
  explicit: `PC.nan` (dropped by `dropna`) and `PC.inf` / `PC.neginf`
  (kept by `dropna`).
-/

namespace TS

inductive Cell where
  | num (q : ℚ)
  | blank
  | text (s : String)
deriving DecidableEq, Repr

structure Row where
  country : String
  varName : String
  cells : List (String × Cell)
deriving DecidableEq, Repr

/-- Reading one cell of a row by column name; an absent column models a
blank CSV cell. -/
def Row.cell (r : Row) (col : String) : Cell :=
  (r.cells.lookup col).getD Cell.blank

/-- Embedding of `pd.to_numeric(..., errors='coerce')` applied to one cell:
numeric content is returned, blank or non-numeric content coerces to
missing (`none`), and no input raises. -/
def toNumeric : Cell → Option ℚ
  | .num q => some q
  | .blank => none
  | .text _ => none

/-- The country constant hard-coded at line 31 of the source. -/
def bolivia : String := "Bolivia (Plurinational State of)"

/-- Line 31: `df_bolivia = df[df['Country'] == 'Bolivia (Plurinational State of)']`,
parameterized by the country string compared against. -/
def df_bolivia (df : List Row) (c : String) : List Row :=
  df.filter (fun r => r.country == c)

/-- Line 34: `year_columns = [str(year) for year in range(1950, 2020)]`. -/
def year_columns : List String :=
  (List.range' 1950 70).map (fun year => toString year)

/-- Line 87 / 293: `df_variable = df_bolivia[df_bolivia['Variable name'] == variable_name]`. -/
def filterVariable (dfb : List Row) (v : String) : List Row :=
  dfb.filter (fun r => r.varName == v)

/-- Lines 91-94: `df_variable.iloc[0][year_columns]` followed by
`pd.to_numeric(..., errors='coerce')`: the per-year raw series of a row,
with `none` for cells that fail coercion. -/
def Row.series (r : Row) (years : List String) : List (String × Option ℚ) :=
  years.map (fun y => (y, toNumeric (r.cell y)))

/-- Lines 97-99: the valid mask `~np.isnan(...)` applied to the series:
years with missing data are filtered out. -/
def validSeries (r : Row) (years : List String) : List (String × ℚ) :=
  (r.series years).filterMap (fun p =>
    match p.2 with
    | some q => some (p.1, q)
    | none => none)

/-- Result value of a pandas `pct_change` entry: an IEEE float which is
either NaN, plus or minus infinity, or finite. -/
inductive PC where
  | nan
  | inf
  | neginf
  | fin (q : ℚ)
deriving DecidableEq, Repr

/-- One pandas `pct_change() * 100` step: `(curr / prev - 1) * 100` under
float semantics.  When `prev = 0` the float division produces `inf`,
`-inf` or `nan` according to the sign of `curr`. -/
def pctChange100 (prev curr : ℚ) : PC :=
  if prev = 0 then
    if 0 < curr then PC.inf
    else if curr < 0 then PC.neginf
    else PC.nan
  else PC.fin ((curr - prev) / prev * 100)

/-- Tail of `pct_change`: each entry paired with the value of the entry
immediately before it in the (already missing-dropped) series. -/
def pctTail (prev : ℚ) : List (String × ℚ) → List (String × PC)
  | [] => []
  | p :: rest => (p.1, pctChange100 prev p.2) :: pctTail p.2 rest

/-- Line 192: `valid_series.pct_change() * 100`: first entry NaN, then the
consecutive percent changes. -/
def pct_change : List (String × ℚ) → List (String × PC)
  | [] => []
  | p :: rest => (p.1, PC.nan) :: pctTail p.2 rest

/-- Line 194: `.dropna()` drops NaN entries; infinities are kept. -/
def dropna (l : List (String × PC)) : List (String × PC) :=
  l.filter (fun p => !(p.2 == PC.nan))

/-- Lines 191-194: the growth-rate series of the valid (missing-dropped)
series. -/
def growth_rates (vs : List (String × ℚ)) : List (String × PC) :=
  dropna (pct_change vs)

/-- Observable effect of one iteration of the plotting loop
(lines 86-129): either a trace is added to the figure, or a warning would
be shown.  The loop body of the source contains no warning call. -/
inductive Event where
  | trace (v : String) (data : List (String × ℚ))
  | warning (msg : String)
deriving DecidableEq, Repr

/-- Lines 86-103: the batch loop over `selected_variables`.  A variable
with no matching row is skipped (`if not df_variable.empty`), a variable
with no valid data is skipped (`continue`), every other variable yields a
trace.  No warnings are produced. -/
def plotLoopEvents (dfb : List Row) (vars : List String) : List Event :=
  vars.filterMap (fun v =>
    match (filterVariable dfb v).head? with
    | none => none
    | some r =>
      let data := validSeries r year_columns
      if data.isEmpty then none else some (Event.trace v data))

/-- Line 295: the numeric column stored into `download_data` for one
matched row, over the fixed year columns; missing cells stay missing. -/
def exportColumn (r : Row) : List (Option ℚ) :=
  year_columns.map (fun y => toNumeric (r.cell y))

structure WideTable where
  yearCol : List String
  cols : List (String × List (Option ℚ))
deriving DecidableEq, Repr

/-- Lines 290-295: `download_data = pd.DataFrame({'Year': year_columns})`,
then one column per selected variable that has a matching row. -/
def download_data (dfb : List Row) (vars : List String) : WideTable :=
  { yearCol := year_columns
    cols := vars.filterMap (fun v =>
      (filterVariable dfb v).head?.map (fun r => (v, exportColumn r))) }

/-- Column names of the exported table in order: `Year` first (the frame
is created from it), then the variable columns in insertion order. -/
def columnOrder (dfb : List Row) (vars : List String) : List String :=
  "Year" :: (download_data dfb vars).cols.map Prod.fst

/-! ### Definitions following the words of spec claims, for comparison -/

/-- Claimed growth-rate semantics following the words of claim C1: for
each year t after the first, the percent change from the immediately
preceding year of the raw series, and missing (dropped) whenever the
previous raw value is 0 or missing. -/
def growthRateClaimed (raw : List (String × Option ℚ)) : List (String × ℚ) :=
  (raw.zip raw.tail).filterMap (fun pc =>
    match pc.1.2, pc.2.2 with
    | some p, some c => if p = 0 then none else some (pc.2.1, (c - p) / p * 100)
    | _, _ => none)

/-- Claimed Raw-transformation semantics following the words of claim C2:
missing values are zero-filled, nothing is dropped. -/
def rawClaimed (raw : List (String × Option ℚ)) : List (String × ℚ) :=
  raw.map (fun p => (p.1, p.2.getD 0))

/-- Decimal parser on characters, structurally recursive so that concrete
instances evaluate in the kernel. -/
def parseDigits (acc : ℕ) : List Char → Option ℕ
  | [] => some acc
  | c :: rest =>
    if c.isDigit then parseDigits (acc * 10 + (c.toNat - 48)) rest
    else none

/-- Parse a string as a nonnegative integer; `none` when empty or
containing a non-digit. -/
def strNat? (s : String) : Option ℕ :=
  match s.data with
  | [] => none
  | l => parseDigits 0 l

/-- Numeric value of a year string, with 0 for unparseable strings (used
to state ascending-order properties). -/
def yearNum (s : String) : ℕ :=
  (strNat? s).getD 0

/-- Insertion of a year string in ascending numeric order (helper for
`yearColumnsClaimed`). -/
def insertYear (s : String) : List String → List String
  | [] => [s]
  | t :: rest =>
    if yearNum s ≤ yearNum t then s :: t :: rest
    else t :: insertYear s rest

/-- Ascending insertion sort on year strings (helper for
`yearColumnsClaimed`). -/
def sortYearsAsc (l : List String) : List String :=
  l.foldr insertYear []

/-- Claimed year-column discovery following the words of claim C3: the
column names of the dataset header that parse as four-digit integers,
sorted ascending. -/
def yearColumnsClaimed (header : List String) : List String :=
  sortYearsAsc (header.filter (fun s => s.length == 4 && (strNat? s).isSome))

/-- Claimed export column order following the words of claim C5: Year,
Country, then the selected/present variables in canonical order. -/
def claimedColumnOrder (canonical selected : List String) (dfb : List Row) :
    List String :=
  "Year" :: "Country" ::
    canonical.filter (fun v =>
      selected.contains v && ((filterVariable dfb v).head?).isSome)

/-- Modelled from the spec: the RangeFilter component (`filterYears`,
spec section 4.3) is not present in `src/streamlit_ts001.py`; per the
spec it returns the intersection of `allYears` with the inclusive
interval from `lo` to `hi`, preserving the ascending order of
`allYears`. -/
def filterYears (allYears : List ℕ) (lo hi : ℕ) : List ℕ :=
  allYears.filter (fun y => lo ≤ y && y ≤ hi)

/-! ### Concrete test rows -/

/-- The Bolivia scenario row of the spec: 1950 holds 100, 1951 holds 110,
1952 is missing, every other year cell is blank. -/
def boliviaRow : Row :=
  { country := bolivia
    varName := "Real GDP at constant 2017 national prices (in mil. 2017US$)"
    cells := [("1950", Cell.num 100), ("1951", Cell.num 110),
              ("1952", Cell.blank)] }

/-- A row with a gap: 1950 holds 100, 1951 is missing, 1952 holds 120. -/
def gapRow : Row :=
  { country := bolivia
    varName := "G"
    cells := [("1950", Cell.num 100), ("1951", Cell.blank),
              ("1952", Cell.num 120)] }

/-- A one-cell row for variable `A`. -/
def rowA : Row :=
  { country := bolivia
    varName := "A"
    cells := [("1950", Cell.num 1)] }

/-- A one-cell row for variable `B`. -/
def rowB : Row :=
  { country := bolivia
    varName := "B"
    cells := [("1950", Cell.num 2)] }

/-! ### Helper lemmas -/

lemma head_filter_filter {α : Type} (p q : α → Bool) (l : List α) :
    ((l.filter p).filter q).head? = l.find? (fun a => p a && q a) := by
  induction l with
  | nil => rfl
  | cons a t ih =>
    cases hp : p a <;> cases hq : q a <;>
      simp [List.filter_cons, List.find?_cons, hp, hq, ih, Bool.and_comm]

lemma cols_map_fst (dfb : List Row) (vars : List String) :
    (download_data dfb vars).cols.map Prod.fst =
      vars.filter (fun v => ((filterVariable dfb v).head?).isSome) := by
  induction vars with
  | nil => rfl
  | cons v t ih =>
    simp only [download_data, List.filterMap_cons, List.filter_cons] at *
    cases h : (filterVariable dfb v).head? <;> simp [h, ih]

lemma pctTail_eq_zip (prev : String × ℚ) (l : List (String × ℚ)) :
    pctTail prev.2 l =
      ((prev :: l).zip l).map (fun pc => (pc.2.1, pctChange100 pc.1.2 pc.2.2)) := by
  induction l generalizing prev with
  | nil => rfl
  | cons a t ih => simp [pctTail, List.zip_cons_cons, ih a]

lemma dropna_no_nan (l : List (String × PC)) (h : ∀ p ∈ l, p.2 ≠ PC.nan) :
    dropna l = l := by
  apply List.filter_eq_self.mpr
  intro p hp
  simpa using h p hp

lemma lookup_series (r : Row) :
    ∀ (years : List String) (y : String), y ∈ years →
      (Row.series r years).lookup y = some (toNumeric (r.cell y)) := by
  intro years
  induction years with
  | nil => intro y h; cases h
  | cons a t ih =>
    intro y h
    show List.lookup y ((a, toNumeric (r.cell a)) :: Row.series r t) = _
    cases hy : (y == a) with
    | true =>
      have hya : y = a := by simpa using hy
      subst hya
      simp [List.lookup]
    | false =>
      have hyt : y ∈ t := by
        cases h with
        | head => simp at hy
        | tail _ h2 => exact h2
      simpa [List.lookup, hy] using ih y hyt

/-! ### Claim theorems -/

/-- Claim C1 is false on the code: for the series 1950 = 100, 1951
missing, 1952 = 120 over requested years 1950-1952, the claim demands a
missing growth value for 1952 (its immediately preceding year 1951 is
missing), but the code drops missing years first and computes 20 percent
for 1952 against the last present year 1950. -/
theorem growth_rate_missing_prev_cex :
    growth_rates (validSeries gapRow ["1950", "1951", "1952"]) =
      [("1952", PC.fin 20)] ∧
    growthRateClaimed (Row.series gapRow ["1950", "1951", "1952"]) = [] := by
  constructor
  · norm_num [growth_rates, validSeries, Row.series, gapRow, Row.cell, toNumeric,
      pct_change, pctTail, dropna, pctChange100, bolivia, List.lookup,
      List.filterMap, List.filter_cons]
    exact fun h => PC.noConfusion h
  · decide

/-- Claim C1 amended: the growth-rate transform computes percent change
between consecutive entries of the missing-dropped series, so the
previous value may belong to a non-adjacent year; the first present year
is always dropped; a previous value of 0 yields positive or negative
infinity (kept by dropna) unless the current value is also 0 (NaN,
dropped); the Bolivia scenario over years 1950-1952 yields exactly
the pair 1951 with 10 percent. -/
theorem growth_rates_filtered_consecutive :
    (∀ vs : List (String × ℚ),
       growth_rates vs =
         ((vs.zip vs.tail).map
             (fun pc => (pc.2.1, pctChange100 pc.1.2 pc.2.2))).filter
           (fun p => !(p.2 == PC.nan))) ∧
    growth_rates (validSeries boliviaRow ["1950", "1951", "1952"]) =
      [("1951", PC.fin 10)] ∧
    pctChange100 0 110 = PC.inf ∧ pctChange100 0 0 = PC.nan := by
  refine ⟨?_, ?_, by decide, by decide⟩
  · intro vs
    cases vs with
    | nil => rfl
    | cons p rest =>
      show dropna ((p.1, PC.nan) :: pctTail p.2 rest) = _
      rw [pctTail_eq_zip p rest]
      simp [dropna, List.filter_cons]
  · norm_num [growth_rates, validSeries, Row.series, boliviaRow, Row.cell,
      toNumeric, pct_change, pctTail, dropna, pctChange100, bolivia,
      List.lookup, List.filterMap, List.filter_cons]
    exact fun h => PC.noConfusion h

/-- Claim C2 is false on the code: the Bolivia scenario series over years
1950-1952 is not zero-filled anywhere; the export path keeps the missing
1952 entry missing (the raw series and the export column hold none, not
0), and the plot path drops it. -/
theorem raw_zero_fill_cex :
    (rawClaimed (Row.series boliviaRow ["1950", "1951", "1952"])).get? 2 =
      some ("1952", 0) ∧
    (Row.series boliviaRow ["1950", "1951", "1952"]).get? 2 =
      some ("1952", none) ∧
    (exportColumn boliviaRow).get? 2 = some none ∧
    validSeries boliviaRow ["1950", "1951", "1952"] =
      [("1950", 100), ("1951", 110)] := by
  refine ⟨by decide, by decide, by decide, by decide⟩

/-- Claim C2 amended: extraction returns the exact numeric value of a
cell that parses and missing for a blank or unparseable cell; the export
column preserves missing entries as missing (no zero-fill), and the plot
path drops them; the Bolivia scenario over years 1950-1952 yields 100,
110 and a missing entry. -/
theorem raw_missing_preserved :
    (∀ r : Row, exportColumn r = (Row.series r year_columns).map Prod.snd) ∧
    (∀ q : ℚ, toNumeric (Cell.num q) = some q) ∧
    toNumeric Cell.blank = none ∧
    (∀ s, toNumeric (Cell.text s) = none) ∧
    (exportColumn boliviaRow).take 3 = [some 100, some 110, none] ∧
    validSeries boliviaRow ["1950", "1951", "1952"] =
      [("1950", 100), ("1951", 110)] := by
  refine ⟨fun r => ?_, fun q => rfl, rfl, fun s => rfl, by decide, by decide⟩
  simp only [exportColumn, Row.series, List.map_map]
  rfl

/-- Claim C3 is false on the code: the year columns are the fixed list
1950-2019 and are not discovered from the dataset header; for a header
whose four-digit columns are exactly 1950 and 1951, the claimed dynamic
discovery returns two columns while the code uses its fixed 70-column
universe. -/
theorem year_columns_dynamic_cex :
    yearColumnsClaimed ["Country", "Variable name", "1950", "1951"] =
      ["1950", "1951"] ∧
    year_columns ≠ ["1950", "1951"] ∧
    year_columns.length = 70 := by
  refine ⟨by decide, by decide, by decide⟩

/-- Claim C3 amended: the universe of valid years is the fixed constant
list of the 70 strings 1950 through 2019, in strictly ascending numeric
order, independent of the dataset. -/
theorem year_columns_fixed :
    year_columns =
      ["1950", "1951", "1952", "1953", "1954", "1955", "1956", "1957",
       "1958", "1959", "1960", "1961", "1962", "1963", "1964", "1965",
       "1966", "1967", "1968", "1969", "1970", "1971", "1972", "1973",
       "1974", "1975", "1976", "1977", "1978", "1979", "1980", "1981",
       "1982", "1983", "1984", "1985", "1986", "1987", "1988", "1989",
       "1990", "1991", "1992", "1993", "1994", "1995", "1996", "1997",
       "1998", "1999", "2000", "2001", "2002", "2003", "2004", "2005",
       "2006", "2007", "2008", "2009", "2010", "2011", "2012", "2013",
       "2014", "2015", "2016", "2017", "2018", "2019"] ∧
    List.Pairwise (fun a b => yearNum a < yearNum b) year_columns := by
  refine ⟨by decide, by decide⟩

/-- Claim C4 confirmed: extraction filters by exact, case-sensitive string
equality on the country and the variable name, and its result is the
first row of the dataset (in dataset order) matching both; with zero
matches the result is none (an empty-series result, no exception).  The
second conjunct shows a row differing from the requested country only in
letter case is not matched; the third shows the first of two duplicate
rows wins. -/
theorem extract_first_exact_match :
    (∀ (df : List Row) (c v : String),
       (filterVariable (df_bolivia df c) v).head? =
         df.find? (fun r => r.country == c && r.varName == v)) ∧
    (filterVariable (df_bolivia
        [{ country := "BOLIVIA (PLURINATIONAL STATE OF)", varName := "X",
           cells := [] }] bolivia) "X").head? = none ∧
    (filterVariable (df_bolivia
        [rowA,
         { country := bolivia, varName := "A", cells := [("1950", Cell.num 7)] }]
        bolivia) "A").head? = some rowA := by
  refine ⟨fun df c v => ?_, by decide, by decide⟩
  exact head_filter_filter (fun r => r.country == c) (fun r => r.varName == v) df

/-- Claim C5 is false on the code: the export built from rows for
variables A and B with selection order B then A has columns Year, B, A;
the claimed order (Year, Country, then canonical order A before B) is
neither the produced order nor does the export contain a Country
column. -/
theorem column_order_cex :
    columnOrder [rowA, rowB] ["B", "A"] = ["Year", "B", "A"] ∧
    claimedColumnOrder ["A", "B"] ["B", "A"] [rowA, rowB] =
      ["Year", "Country", "A", "B"] ∧
    columnOrder [rowA, rowB] ["B", "A"] ≠
      claimedColumnOrder ["A", "B"] ["B", "A"] [rowA, rowB] := by
  refine ⟨by decide, by decide, by decide⟩

/-- Claim C5 amended: the exported table's columns are Year followed by
exactly the selected variables that have a matching dataset row, in
selection order; there is no Country column and no canonical-order
reordering. -/
theorem column_order_selected (dfb : List Row) (vars : List String) :
    columnOrder dfb vars =
      "Year" :: vars.filter (fun v => ((filterVariable dfb v).head?).isSome) := by
  simp [columnOrder, cols_map_fst]

/-- Claim C6 confirmed: the growth-rate transform applied to a constant
series of a nonzero value over any list of years yields one entry per
year after the first, all equal to 0. -/
theorem growth_rates_const_zero (v : ℚ) (hv : v ≠ 0) (years : List String) :
    growth_rates (years.map (fun y => (y, v))) =
      years.tail.map (fun y => (y, PC.fin 0)) ∧
    (growth_rates (years.map (fun y => (y, v)))).length = years.length - 1 := by
  have hpc : pctChange100 v v = PC.fin 0 := by
    simp [pctChange100, hv]
  have key : ∀ ys : List String,
      pctTail v (ys.map (fun y => (y, v))) = ys.map (fun y => (y, PC.fin 0)) := by
    intro ys
    induction ys with
    | nil => rfl
    | cons a t ih => simp [pctTail, hpc, ih]
  have h1 : growth_rates (years.map (fun y => (y, v))) =
      years.tail.map (fun y => (y, PC.fin 0)) := by
    cases years with
    | nil => rfl
    | cons a t =>
      show dropna ((a, PC.nan) :: pctTail v (t.map (fun y => (y, v)))) = _
      rw [key t]
      simp [dropna, List.filter_cons]
  refine ⟨h1, ?_⟩
  rw [h1]
  simp

theorem growth_rates_const_zero_witness :
    (5 : ℚ) ≠ 0 ∧
    growth_rates (["1950", "1951", "1952"].map (fun y => (y, (5 : ℚ)))) =
      (["1950", "1951", "1952"].tail).map (fun y => (y, PC.fin 0)) :=
  ⟨by norm_num,
   (growth_rates_const_zero 5 (by norm_num) ["1950", "1951", "1952"]).1⟩

/-- Claim C7 confirmed: extraction is a total function; for each
requested year it records the numeric coercion of the cell, and the
coerced value is missing exactly when the cell is blank or non-numeric
text (no input raises). -/
theorem extract_coerce_total (r : Row) (years : List String) (y : String)
    (h : y ∈ years) :
    (Row.series r years).lookup y = some (toNumeric (r.cell y)) ∧
    ((toNumeric (r.cell y)).isNone ↔
      r.cell y = Cell.blank ∨ ∃ s, r.cell y = Cell.text s) ∧
    (Row.series r years).length = years.length := by
  refine ⟨lookup_series r years y h, ?_, by simp [Row.series]⟩
  cases hc : r.cell y <;> simp [toNumeric]

theorem extract_coerce_total_witness :
    ("1952" ∈ year_columns) ∧
    (Row.series boliviaRow year_columns).lookup "1952" =
      some (toNumeric (boliviaRow.cell "1952")) :=
  ⟨by decide,
   (extract_coerce_total boliviaRow year_columns "1952" (by decide)).1⟩

/-- Claim C8 is false on the code: with a batch of a missing variable
followed by a present one, the present variable is still processed (no
abort), but the failing variable is skipped silently: the loop's
observable output contains a trace for A and no warning event at all,
where the claim requires the failure to be surfaced as a warning. -/
theorem batch_no_warnings_cex :
    plotLoopEvents [rowA] ["Missing", "A"] =
      [Event.trace "A" [("1950", 1)]] ∧
    (plotLoopEvents [rowA] ["Missing", "A"]).all
      (fun e => match e with | Event.warning _ => false | _ => true) = true := by
  refine ⟨by decide, by decide⟩

/-- Claim C8 amended: an extraction or transformation failure for one
variable never aborts processing of the others (the loop distributes
over batches, and a failing variable is simply skipped), but the
failing variables are skipped silently: the batch loop emits traces
only and never a warning. -/
theorem batch_independent_no_warnings :
    (∀ (dfb : List Row) (v1 v2 : List String),
       plotLoopEvents dfb (v1 ++ v2) =
         plotLoopEvents dfb v1 ++ plotLoopEvents dfb v2) ∧
    (∀ (dfb : List Row) (vars : List String),
       (plotLoopEvents dfb vars).all
         (fun e => match e with | Event.warning _ => false | _ => true) = true) ∧
    (∀ (dfb : List Row) (vars : List String) (v : String),
       (filterVariable dfb v).head? = none →
         plotLoopEvents dfb (v :: vars) = plotLoopEvents dfb vars) := by
  refine ⟨fun dfb v1 v2 => List.filterMap_append v1 v2 _, ?_, ?_⟩
  · intro dfb vars
    rw [List.all_eq_true]
    intro e he
    rcases List.mem_filterMap.mp he with ⟨v, _, hv⟩
    simp only [plotLoopEvents] at hv
    cases hh : (filterVariable dfb v).head? with
    | none => rw [hh] at hv; cases hv
    | some r =>
      rw [hh] at hv
      cases hemp : (validSeries r year_columns).isEmpty with
      | true => simp [hemp] at hv
      | false =>
        simp [hemp] at hv
        subst hv
        rfl
  · intro dfb vars v h
    simp [plotLoopEvents, List.filterMap_cons, h]

theorem batch_independent_no_warnings_witness :
    (filterVariable [rowA] "Missing").head? = none ∧
    plotLoopEvents [rowA] ("Missing" :: ["A"]) = plotLoopEvents [rowA] ["A"] :=
  ⟨by decide,
   batch_independent_no_warnings.2.2 [rowA] ["A"] "Missing" (by decide)⟩

/-- Claim C9 confirmed (spec-modelled): `filterYears` returns exactly
the members of `allYears` lying in the inclusive interval from `lo` to
`hi`, preserves ascending order, maps the full range 1950-2020 with
bounds 1960 and 1970 to 1960..1970, returns the empty list on a disjoint
interval, and returns the empty list whenever the bounds are crossed. -/
theorem filterYears_props :
    (∀ (allYears : List ℕ) (lo hi y : ℕ),
       y ∈ filterYears allYears lo hi ↔ y ∈ allYears ∧ lo ≤ y ∧ y ≤ hi) ∧
    (∀ (allYears : List ℕ) (lo hi : ℕ), List.Sorted (fun a b => a < b) allYears →
       List.Sorted (fun a b => a < b) (filterYears allYears lo hi)) ∧
    filterYears (List.range' 1950 71) 1960 1970 = List.range' 1960 11 ∧
    filterYears (List.range' 1950 71) 2025 2030 = [] ∧
    (∀ (allYears : List ℕ) (lo hi : ℕ), hi < lo →
       filterYears allYears lo hi = []) := by
  refine ⟨?_, ?_, by decide, by decide, ?_⟩
  · intro ay lo hi y
    simp [filterYears, List.mem_filter, and_assoc]
  · intro ay lo hi hs
    exact hs.filter _
  · intro ay lo hi hlt
    rw [filterYears, List.filter_eq_nil_iff]
    intro a _
    simp
    omega

theorem filterYears_props_witness :
    List.Sorted (fun a b => a < b) ([1955, 1960, 1980] : List ℕ) ∧
    List.Sorted (fun a b => a < b) (filterYears [1955, 1960, 1980] 1956 1985) ∧
    (1960 : ℕ) < 1970 ∧
    filterYears [1955, 1960, 1980] 1970 1960 = [] :=
  ⟨by decide,
   filterYears_props.2.1 [1955, 1960, 1980] 1956 1985 (by decide),
   by decide,
   filterYears_props.2.2.2.2 [1955, 1960, 1980] 1970 1960 (by decide)⟩

/-- Claim C10 confirmed: the exported table's year column is the fixed
70-entry list 1950 through 2019 in strictly ascending order with no
duplicates, whatever the dataset and selection; a selected variable with
no matching row contributes no column at all; and every variable column
that is present holds exactly one value per year (70 values). -/
theorem download_data_shape (dfb : List Row) (vars : List String) :
    (download_data dfb vars).yearCol = year_columns ∧
    (download_data dfb vars).yearCol.length = 70 ∧
    (download_data dfb vars).yearCol.Nodup ∧
    List.Pairwise (fun a b => yearNum a < yearNum b)
      (download_data dfb vars).yearCol ∧
    (∀ v : String, (filterVariable dfb v).head? = none →
       ((download_data dfb vars).cols.map Prod.fst).contains v = false) ∧
    (∀ c ∈ (download_data dfb vars).cols, c.2.length = 70) := by
  refine ⟨rfl, ?_, ?_, ?_, ?_, ?_⟩
  · show year_columns.length = 70
    decide
  · show year_columns.Nodup
    decide
  · show List.Pairwise (fun a b => yearNum a < yearNum b) year_columns
    decide
  · intro v hv
    rw [cols_map_fst]
    induction vars with
    | nil => rfl
    | cons w t ih =>
      cases hw : ((filterVariable dfb w).head?).isSome with
      | false => simpa [List.filter_cons, hw] using ih
      | true =>
        have hvw : (v == w) = false := by
          cases hbe : (v == w) with
          | false => rfl
          | true =>
            have : v = w := by simpa using hbe
            rw [← this, hv] at hw
            cases hw
        rw [List.filter_cons]
        simp only [hw, if_true]
        rw [List.contains_cons]
        simp only [hvw, Bool.false_or]
        exact ih
  · intro c hc
    simp only [download_data] at hc
    rcases List.mem_filterMap.mp hc with ⟨v, _, hv⟩
    rcases Option.map_eq_some'.mp hv with ⟨r, _, hr⟩
    rw [← hr]
    show (exportColumn r).length = 70
    simp [exportColumn, year_columns]

theorem download_data_shape_witness :
    (filterVariable [rowA] "Missing").head? = none ∧
    ((download_data [rowA] ["Missing", "A"]).cols.map Prod.fst).contains
      "Missing" = false ∧
    ("A", exportColumn rowA) ∈ (download_data [rowA] ["Missing", "A"]).cols ∧
    (("A", exportColumn rowA) : String × List (Option ℚ)).2.length = 70 :=
  ⟨by decide,
   (download_data_shape [rowA] ["Missing", "A"]).2.2.2.2.1 "Missing" (by decide),
   by decide,
   (download_data_shape [rowA] ["Missing", "A"]).2.2.2.2.2
     ("A", exportColumn rowA) (by decide)⟩

end TS
